import Mathlib

/-!
# wolf-dynasty-api: the Team resource handlers

A shallow embedding of `http/owners.go` (the `teamsHandler` methods `GetTeams`,
`CreateTeam`, `UpdateTeam`, `DeleteTeam`).  A handler is a function on an explicit
execution state `Exec σ` that holds

* the outside world `σ` (the store behind the SQL client, the clock, the UUID source),
* the list of client calls made so far (what the counterfeiter fake records in the tests),
* the lines given to `log.Println`,
* the `http.ResponseWriter`.

The SQL client, `encoding/json`, `uuid.New` and `time.Now` are parameters: every theorem
holds for all of their behaviours.

The file also embeds the route registration (`addTeamsHandler` in `http/owners.go`,
`AddRoutes` in `http/route_handler.go`) over a list-of-routes model of `mux.Router`, and the
wrapper `CorsHandler` of `http/cors_handler.go`.
-/

namespace WolfDynasty

/-! ## Data model -/

/-- A `time.Time` instant, counted in nanoseconds since the Unix epoch. -/
abbrev Time := Int

/-- The record `models.Team`, with the four fields the handlers and the tests use. -/
structure Team where
  ID : String
  Name : String
  CreatedAt : Time
  UpdatedAt : Time
deriving DecidableEq, Repr

/-- The Go `error` interface as the handlers observe it: `none` is `nil`, `some msg` is a
non-nil error whose `Error()` text is `msg`. -/
abbrev GoError := Option String

/-- The part of `*http.Request` the handlers read: `r.Method`, `r.URL`, the bytes of
`r.Body`, and the route variables `mux.Vars(r)`. -/
structure Request where
  Method : String
  URL : String
  Body : String
  Vars : List (String × String)
deriving DecidableEq, Repr

/-- The lookup `mux.Vars(r)[key]`; a Go map yields the empty string for an absent key. -/
def muxVars (r : Request) (key : String) : String :=
  (r.Vars.lookup key).getD ""

/-! ## HTTP status codes (`net/http`) -/

def StatusOK : Nat := 200
def StatusCreated : Nat := 201
def StatusNoContent : Nat := 204
def StatusBadRequest : Nat := 400
def StatusNotFound : Nat := 404
def StatusInternalServerError : Nat := 500

/-! ## The persistence client and the runtime -/

/-- The `sql.Client` interface as `teamsHandler` uses it.  Each method takes the world and
returns the Go result pair together with the world after the call. -/
structure Client (σ : Type) where
  GetTeams : σ → (List Team × GoError) × σ
  AddTeam : Team → σ → (Team × GoError) × σ
  GetTeam : String → σ → (Team × GoError) × σ
  UpdateTeam : Team → σ → (Team × GoError) × σ
  DeleteTeam : Team → σ → GoError × σ

/-- The library calls of the handlers.  `Decode body` is the zero-initialised `models.Team`
after `json.NewDecoder(r.Body).Decode(&team)` together with the error returned;
`NewUUID` is `uuid.New().String()`; `Now` is `time.Now()`. -/
structure Runtime (σ : Type) where
  Decode : String → Team × GoError
  NewUUID : σ → String × σ
  Now : σ → Time × σ

/-- One recorded call of a client method, with its argument. -/
inductive Call where
  | GetTeams
  | AddTeam (team : Team)
  | GetTeam (guid : String)
  | UpdateTeam (team : Team)
  | DeleteTeam (team : Team)
deriving DecidableEq, Repr

/-! ## The response writer -/

/-- The second argument of `writeJSON`: `nil`, one Team, or a slice of Teams. -/
inductive Payload where
  | null
  | team (t : Team)
  | teams (ts : List Team)
deriving DecidableEq, Repr

/-- A response body: the JSON serialisation of a payload, or the error envelope
`{"error": msg}`. -/
inductive JSONBody where
  | json (p : Payload)
  | error (msg : String)
deriving DecidableEq, Repr

/-- One response written to the `http.ResponseWriter`. -/
structure Response where
  Status : Nat
  ContentType : Bool
  Body : Option JSONBody
deriving DecidableEq, Repr

/-- The `http.ResponseWriter`: the header map and the responses written so far. -/
structure ResponseWriter where
  Header : List (String × String)
  Written : List Response
deriving DecidableEq, Repr

/-- Modelled from the spec: `writeJSON` is called by every handler but its body is not
among the sources.  Spec 4.3: "Success: serializes the payload as JSON with the given
status code; a nil/absent payload writes no body"; "Content-Type header is always set for
JSON bodies; omitted when no body is written". -/
def writeJSON (w : ResponseWriter) (payload : Payload) (status : Nat) : ResponseWriter :=
  match payload with
  | Payload.null => { w with Written := w.Written ++ [⟨status, false, none⟩] }
  | p => { w with Written := w.Written ++ [⟨status, true, some (JSONBody.json p)⟩] }

/-- Modelled from the spec: `writeJSONError` is called by every handler but its body is not
among the sources.  Spec 4.3: "Error: serializes `{"error": "<message>"}` (or equivalent)
with the given status code". -/
def writeJSONError (w : ResponseWriter) (msg : String) (status : Nat) : ResponseWriter :=
  { w with Written := w.Written ++ [⟨status, true, some (JSONBody.error msg)⟩] }

/-! ## Execution state -/

/-- One line given to `log.Println(r.Method, r.URL, err.Error(), status)`. -/
structure LogLine where
  Method : String
  URL : String
  Msg : String
  Status : Nat
deriving DecidableEq, Repr

/-- The state a handler runs on. -/
structure Exec (σ : Type) where
  world : σ
  calls : List Call
  logs : List LogLine
  w : ResponseWriter

/-- The state at the start of a request: nothing called, logged or written. -/
def Exec.start {σ : Type} (s : σ) : Exec σ :=
  { world := s, calls := [], logs := [], w := ⟨[], []⟩ }

/-- The call `log.Println(r.Method, r.URL, msg, status)`. -/
def Exec.logPrintln {σ : Type} (x : Exec σ) (r : Request) (msg : String) (status : Nat) :
    Exec σ :=
  { x with logs := x.logs ++ [⟨r.Method, r.URL, msg, status⟩] }

/-- The call `writeJSONError(w, msg, status)`. -/
def Exec.writeJSONError {σ : Type} (x : Exec σ) (msg : String) (status : Nat) : Exec σ :=
  { x with w := WolfDynasty.writeJSONError x.w msg status }

/-- The call `writeJSON(w, payload, status)`. -/
def Exec.writeJSON {σ : Type} (x : Exec σ) (payload : Payload) (status : Nat) : Exec σ :=
  { x with w := WolfDynasty.writeJSON x.w payload status }

/-! ## `strings.Contains` and `fmt.Sprintf` -/

/-- The search loop of `strings.Index`: the first position, counted from `i`, at which
`substr` starts in the rest of the text, or `-1`. -/
def stringsIndexFrom (substr : List Char) : List Char → Nat → Int
  | [], i => if substr.isPrefixOf [] then (i : Int) else -1
  | c :: cs, i =>
    if substr.isPrefixOf (c :: cs) then (i : Int) else stringsIndexFrom substr cs (i + 1)

/-- The function `strings.Index(s, substr)`. -/
def stringsIndex (s substr : String) : Int :=
  stringsIndexFrom substr.data s.data 0

/-- The function `strings.Contains(s, substr)`, which is `Index(s, substr) >= 0`. -/
def stringsContains (s substr : String) : Bool :=
  decide (0 ≤ stringsIndex s substr)

/-- The text `fmt.Sprintf("No team found for guid '%s'", guid)`. -/
def noTeamFoundMessage (guid : String) : String :=
  "No team found for guid '" ++ guid ++ "'"

/-! ## The handlers -/

/-- The struct `teamsHandler`. -/
structure teamsHandler (σ : Type) where
  SQLClient : Client σ

/-- The handler `(*teamsHandler).GetTeams`. -/
def teamsHandler.GetTeams {σ : Type} (th : teamsHandler σ) (r : Request) (x : Exec σ) :
    Exec σ :=
  let res := th.SQLClient.GetTeams x.world
  let x1 : Exec σ := { x with world := res.2, calls := x.calls ++ [Call.GetTeams] }
  match res.1.2 with
  | some e =>
    (x1.logPrintln r e StatusInternalServerError).writeJSONError e StatusInternalServerError
  | none => x1.writeJSON (Payload.teams res.1.1) StatusOK

/-- The handler `(*teamsHandler).CreateTeam`. -/
def teamsHandler.CreateTeam {σ : Type} (th : teamsHandler σ) (rt : Runtime σ) (r : Request)
    (x : Exec σ) : Exec σ :=
  let dec := rt.Decode r.Body
  match dec.2 with
  | some e => (x.logPrintln r e StatusBadRequest).writeJSONError e StatusBadRequest
  | none =>
    let team := dec.1
    let id := rt.NewUUID x.world
    let team := { team with ID := id.1 }
    let t := rt.Now id.2
    let team := { team with CreatedAt := t.1 }
    let team := { team with UpdatedAt := t.1 }
    let res := th.SQLClient.AddTeam team t.2
    let x1 : Exec σ := { x with world := res.2, calls := x.calls ++ [Call.AddTeam team] }
    match res.1.2 with
    | some e =>
      (x1.logPrintln r e StatusInternalServerError).writeJSONError e StatusInternalServerError
    | none => x1.writeJSON (Payload.team res.1.1) StatusCreated

/-- The handler `(*teamsHandler).UpdateTeam`. -/
def teamsHandler.UpdateTeam {σ : Type} (th : teamsHandler σ) (rt : Runtime σ) (r : Request)
    (x : Exec σ) : Exec σ :=
  let dec := rt.Decode r.Body
  match dec.2 with
  | some e => (x.logPrintln r e StatusBadRequest).writeJSONError e StatusBadRequest
  | none =>
    let newTeam := dec.1
    let guid := muxVars r "guid"
    let got := th.SQLClient.GetTeam guid x.world
    let x1 : Exec σ := { x with world := got.2, calls := x.calls ++ [Call.GetTeam guid] }
    match got.1.2 with
    | some e =>
      if stringsContains e "no rows" then
        (x1.logPrintln r e StatusNotFound).writeJSONError (noTeamFoundMessage guid)
          StatusNotFound
      else
        (x1.logPrintln r e StatusInternalServerError).writeJSONError e
          StatusInternalServerError
    | none =>
      let team := got.1.1
      let t := rt.Now x1.world
      let team := { team with UpdatedAt := t.1 }
      let team := { team with Name := newTeam.Name }
      let res := th.SQLClient.UpdateTeam team t.2
      let x2 : Exec σ :=
        { x1 with world := res.2, calls := x1.calls ++ [Call.UpdateTeam team] }
      match res.1.2 with
      | some e =>
        (x2.logPrintln r e StatusInternalServerError).writeJSONError e
          StatusInternalServerError
      | none => x2.writeJSON (Payload.team res.1.1) StatusOK

/-- The handler `(*teamsHandler).DeleteTeam`. -/
def teamsHandler.DeleteTeam {σ : Type} (th : teamsHandler σ) (r : Request) (x : Exec σ) :
    Exec σ :=
  let guid := muxVars r "guid"
  let got := th.SQLClient.GetTeam guid x.world
  let x1 : Exec σ := { x with world := got.2, calls := x.calls ++ [Call.GetTeam guid] }
  match got.1.2 with
  | some e =>
    if stringsContains e "no rows" then
      (x1.logPrintln r e StatusNotFound).writeJSONError (noTeamFoundMessage guid)
        StatusNotFound
    else
      (x1.logPrintln r e StatusInternalServerError).writeJSONError e
        StatusInternalServerError
  | none =>
    let team := got.1.1
    let res := th.SQLClient.DeleteTeam team x1.world
    let x2 : Exec σ :=
      { x1 with world := res.2, calls := x1.calls ++ [Call.DeleteTeam team] }
    match res.1 with
    | some e =>
      (x2.logPrintln r e StatusInternalServerError).writeJSONError e
        StatusInternalServerError
    | none => x2.writeJSON Payload.null StatusNoContent

/-! ## A fake world for concrete runs

The tests drive the handlers with the counterfeiter fake `sqlfakes.FakeClient`, whose
methods return canned values.  `FakeWorld` is that fake together with a ticking clock and a
supply of identifiers. -/

/-- The canned returns of the fake client, the clock and the identifiers still to be
handed out. -/
structure FakeWorld where
  GetTeamsReturns : List Team × GoError
  AddTeamReturns : Team × GoError
  GetTeamReturns : Team × GoError
  UpdateTeamReturns : Team × GoError
  DeleteTeamReturns : GoError
  clock : Time
  ids : List String
deriving DecidableEq, Repr

/-- The fake client: every method returns its canned value and leaves the world alone. -/
def fakeClient : Client FakeWorld where
  GetTeams := fun s => (s.GetTeamsReturns, s)
  AddTeam := fun _ s => (s.AddTeamReturns, s)
  GetTeam := fun _ s => (s.GetTeamReturns, s)
  UpdateTeam := fun _ s => (s.UpdateTeamReturns, s)
  DeleteTeam := fun _ s => (s.DeleteTeamReturns, s)

/-- The zero value of `time.Time` (1 January of year 1, UTC), in nanoseconds since the Unix
epoch. -/
def zeroTime : Time := -62135596800000000000

/-- A decoder for concrete runs: the empty body fails with `EOF`, three well-formed bodies
decode to their Teams, and every other body is treated like the malformed body
`{bad:json}` of the tests, with the text `encoding/json` gives for it. -/
def fakeDecode (body : String) : Team × GoError :=
  if body = "" then (⟨"", "", zeroTime, zeroTime⟩, some "EOF")
  else if body = "\x7b\"name\":\"Dynasty\"\x7d" then
    (⟨"", "Dynasty", zeroTime, zeroTime⟩, none)
  else if body = "\x7b\"name\":\"Renamed\"\x7d" then
    (⟨"", "Renamed", zeroTime, zeroTime⟩, none)
  else if body = "\x7b\"id\":\"1\",\"name\":\"Renamed\",\"created_at\":\"1970-01-01T00:00:07Z\",\"updated_at\":\"1970-01-01T00:00:09Z\"\x7d" then
    (⟨"1", "Renamed", 7000000000, 9000000000⟩, none)
  else
    (⟨"", "", zeroTime, zeroTime⟩,
      some "invalid character 'b' looking for beginning of object key string")

/-- The runtime of the fake world: the clock advances by one at every reading and the
identifiers are handed out in order. -/
def fakeRuntime : Runtime FakeWorld where
  Decode := fakeDecode
  NewUUID := fun s => (s.ids.headD "", { s with ids := s.ids.tail })
  Now := fun s => (s.clock, { s with clock := s.clock + 1 })

/-- The handler under test, wired to the fake client. -/
def fakeHandler : teamsHandler FakeWorld := ⟨fakeClient⟩

/-- A fake world whose store knows the Team with id `1`: every read and write succeeds. -/
def worldOK : FakeWorld where
  GetTeamsReturns := ([⟨"1", "Some Lame team", 5, 5⟩], none)
  AddTeamReturns := (⟨"stored", "Awesome Team", 40, 41⟩, none)
  GetTeamReturns := (⟨"1", "Some Lame team", 5, 5⟩, none)
  UpdateTeamReturns := (⟨"1", "Awesome Team", 5, 6⟩, none)
  DeleteTeamReturns := none
  clock := 100
  ids := ["uuid-a", "uuid-b"]

/-- A `PATCH /v1/teams/some-guid` request with the given body. -/
def patchRequest (body : String) : Request :=
  ⟨"PATCH", "/v1/teams/some-guid", body, [("guid", "some-guid")]⟩

/-- A `POST /v1/teams` request with the given body. -/
def postRequest (body : String) : Request :=
  ⟨"POST", "/v1/teams", body, []⟩

/-- A `DELETE /v1/teams/some-guid` request with the given body. -/
def deleteRequest (body : String) : Request :=
  ⟨"DELETE", "/v1/teams/some-guid", body, [("guid", "some-guid")]⟩

/-- A body that names only the Team. -/
def bodyRenamed : String := "\x7b\"name\":\"Renamed\"\x7d"

/-- A body that carries its own id and timestamps next to the name. -/
def bodyRenamedFull : String :=
  "\x7b\"id\":\"1\",\"name\":\"Renamed\",\"created_at\":\"1970-01-01T00:00:07Z\",\"updated_at\":\"1970-01-01T00:00:09Z\"\x7d"

/-- A fake world whose store has no row for the guid: `GetTeam` fails with the text the
tests use for absence. -/
def worldAbsent : FakeWorld :=
  { worldOK with GetTeamReturns := (⟨"", "", zeroTime, zeroTime⟩, some "no rows found") }

/-- A fake world whose `GetTeam` fails for another reason. -/
def worldGetFails : FakeWorld :=
  { worldOK with GetTeamReturns := (⟨"", "", zeroTime, zeroTime⟩, some "some error") }

/-- A fake world whose writes fail. -/
def worldWriteFails : FakeWorld :=
  { worldOK with
    AddTeamReturns := (⟨"", "", zeroTime, zeroTime⟩, some "some error")
    UpdateTeamReturns := (⟨"", "", zeroTime, zeroTime⟩, some "some error")
    DeleteTeamReturns := some "some error" }

/-- A fake world whose stored Team was created at instant 200, read by a clock at 100. -/
def worldCreatedLater : FakeWorld :=
  { worldOK with GetTeamReturns := (⟨"1", "Some Lame team", 200, 200⟩, none) }

/-! ## Reading the recorded calls and the responses -/

/-- The status and the body of every response written, in order. -/
def responses {σ : Type} (x : Exec σ) : List (Nat × Option JSONBody) :=
  x.w.Written.map fun p => (p.Status, p.Body)

/-- The status of every response written, in order. -/
def statuses {σ : Type} (x : Exec σ) : List Nat :=
  x.w.Written.map fun p => p.Status


/-- The arguments of the recorded `AddTeam` calls, in order. -/
def addTeamArgs (cs : List Call) : List Team :=
  cs.filterMap fun c => match c with
    | Call.AddTeam t => some t
    | _ => none

/-- The arguments of the recorded `UpdateTeam` calls, in order. -/
def updateTeamArgs (cs : List Call) : List Team :=
  cs.filterMap fun c => match c with
    | Call.UpdateTeam t => some t
    | _ => none

/-- The arguments of the recorded `DeleteTeam` calls, in order. -/
def deleteTeamArgs (cs : List Call) : List Team :=
  cs.filterMap fun c => match c with
    | Call.DeleteTeam t => some t
    | _ => none

/-- The arguments of the recorded `GetTeam` calls, in order. -/
def getTeamArgs (cs : List Call) : List String :=
  cs.filterMap fun c => match c with
    | Call.GetTeam g => some g
    | _ => none

/-! ## More fake worlds and requests -/

/-- A `GET /v1/teams` request. -/
def listRequest : Request :=
  ⟨"GET", "/v1/teams", "", []⟩

/-- A fake world whose store holds two Teams, listed in this order. -/
def worldTwoTeams : FakeWorld :=
  { worldOK with
    GetTeamsReturns := ([⟨"2", "Second", 8, 9⟩, ⟨"1", "Awesome Team", 5, 5⟩], none) }

/-- A fake world whose store is empty. -/
def worldNoTeams : FakeWorld :=
  { worldOK with GetTeamsReturns := ([], none) }

/-- A fake world whose list operation fails. -/
def worldListFails : FakeWorld :=
  { worldOK with GetTeamsReturns := ([], some "some error") }

/-- A fake world whose `GetTeam` fails with the text of `sql.ErrNoRows`. -/
def worldErrNoRows : FakeWorld :=
  { worldOK with
    GetTeamReturns := (⟨"", "", zeroTime, zeroTime⟩, some "sql: no rows in result set") }

/-- A fake world whose `GetTeam` fails on a broken connection, with a text that happens to
contain `no rows`. -/
def worldBrokenNoRows : FakeWorld :=
  { worldOK with
    GetTeamReturns :=
      (⟨"", "", zeroTime, zeroTime⟩, some "connection reset: no rows could be read") }

/-- A fake world whose store reports absence with another text. -/
def worldAbsentOtherText : FakeWorld :=
  { worldOK with GetTeamReturns := (⟨"", "", zeroTime, zeroTime⟩, some "record not found") }

/-! ## Counting the client operations -/

/-- The five operations of the client. -/
inductive Op where
  | GetTeams
  | AddTeam
  | GetTeam
  | UpdateTeam
  | DeleteTeam
deriving DecidableEq, Repr

/-- The operation of a recorded call. -/
def Call.op : Call → Op
  | Call.GetTeams => Op.GetTeams
  | Call.AddTeam _ => Op.AddTeam
  | Call.GetTeam _ => Op.GetTeam
  | Call.UpdateTeam _ => Op.UpdateTeam
  | Call.DeleteTeam _ => Op.DeleteTeam

/-- How often the operation `o` occurs among the recorded calls. -/
def opCount (o : Op) (cs : List Call) : Nat :=
  (cs.filter fun c => decide (c.op = o)).length

/-! ## Routing (`gorilla/mux`) -/

/-- The type `http.HandlerFunc`: a handler reads the request and acts on the state. -/
abbrev Handler (σ : Type) := Request → Exec σ → Exec σ

/-- One route of a `mux.Router`, as built by
`router.Methods(m).Path(tpl).Name(n).HandlerFunc(f)`; an empty `Methods` admits every
method. -/
structure Route (σ : Type) where
  Methods : List String
  Path : String
  Name : String
  HandlerFunc : Handler σ

/-- A `mux.Router`: its routes in the order of registration. -/
abbrev Router (σ : Type) := List (Route σ)

/-- The segments of a path, cut at every `/`; `cur` holds the segment being read, in
reverse. -/
def pathSegmentsFrom (cur : List Char) : List Char → List (List Char)
  | [] => [cur.reverse]
  | c :: cs =>
    if c = '/' then cur.reverse :: pathSegmentsFrom [] cs
    else pathSegmentsFrom (c :: cur) cs

/-- The segments of a path. -/
def pathSegments (path : String) : List (List Char) :=
  pathSegmentsFrom [] path.data

/-- The variable named by a template segment of the form `{name}`, if it is one. -/
def templateVar (seg : List Char) : Option String :=
  match seg with
  | '\x7b' :: rest =>
    if rest.getLast? = some '\x7d' then some (String.mk rest.dropLast) else none
  | _ => none

/-- Matching of the segments of a path template against those of a request path: a
`{name}` segment matches any non-empty segment (the default pattern `[^/]+` of mux) and
binds it, every other segment matches itself. -/
def matchSegments : List (List Char) → List (List Char) → Option (List (String × String))
  | [], [] => some []
  | t :: ts, p :: ps =>
    match templateVar t with
    | some v =>
      if p.isEmpty then none
      else (matchSegments ts ps).map fun vars => (v, String.mk p) :: vars
    | none => if t = p then matchSegments ts ps else none
  | _, _ => none

/-- The route variables, if the route matches the method and the path of the request. -/
def Route.Match {σ : Type} (route : Route σ) (r : Request) :
    Option (List (String × String)) :=
  if route.Methods.isEmpty || route.Methods.contains r.Method then
    matchSegments (pathSegments route.Path) (pathSegments r.URL)
  else none

/-- The first route of the router that matches the request, with the route variables. -/
def Router.Match {σ : Type} : Router σ → Request → Option (Route σ × List (String × String))
  | [], _ => none
  | route :: rest, r =>
    match route.Match r with
    | some vars => some (route, vars)
    | none => Router.Match rest r

/-- The name of the route a request is dispatched to, if there is one. -/
def Router.routeName {σ : Type} (router : Router σ) (r : Request) : Option String :=
  (router.Match r).map fun m => m.1.Name

/-- The method `(*mux.Router).ServeHTTP`: the handler of the matching route runs on the
request with the route variables set; `none` stands for the router answering by itself
because no route matches. -/
def Router.ServeHTTP {σ : Type} (router : Router σ) (r : Request) (x : Exec σ) :
    Option (Exec σ) :=
  (router.Match r).map fun m => m.1.HandlerFunc { r with Vars := m.2 } x

/-- The struct `wolf.Services`. -/
structure Services (σ : Type) where
  SQLClient : Client σ

/-- The function `addTeamsHandler`. -/
def addTeamsHandler {σ : Type} (rt : Runtime σ) (s : Services σ) (router : Router σ) :
    Router σ :=
  let router := router ++ [⟨["GET"], "/v1/teams", "GetTeams",
    (teamsHandler.mk s.SQLClient).GetTeams⟩]
  let router := router ++ [⟨["POST"], "/v1/teams", "CreateTeam",
    (teamsHandler.mk s.SQLClient).CreateTeam rt⟩]
  let router := router ++ [⟨["PATCH"], "/v1/teams/\x7bguid\x7d", "PatchTeam",
    (teamsHandler.mk s.SQLClient).UpdateTeam rt⟩]
  router ++ [⟨["DELETE"], "/v1/teams/\x7bguid\x7d", "DeleteTeam",
    (teamsHandler.mk s.SQLClient).DeleteTeam⟩]

/-- Modelled from the spec: `addHealthCheckHandler` is called by `AddRoutes` but its body
is not among the sources.  Spec 6: "A `/health` endpoint returns 200 with no body when the
process is serving". -/
def addHealthCheckHandler {σ : Type} (router : Router σ) : Router σ :=
  router ++ [⟨[], "/health", "",
    fun _ x =>
      { x with w := { x.w with Written := x.w.Written ++ [⟨StatusOK, false, none⟩] } }⟩]

/-- The function `AddRoutes`: its body is the one call `addHealthCheckHandler(router)`. -/
def AddRoutes {σ : Type} (_s : Services σ) (router : Router σ) : Router σ :=
  addHealthCheckHandler router

/-- The services of the tests: the fake client. -/
def fakeServices : Services FakeWorld := ⟨fakeClient⟩

/-! ## Response headers and the CORS wrapper -/

/-- The bytes `net/textproto` admits in a header field name. -/
def validHeaderFieldByte (c : Char) : Bool :=
  c.isAlphanum || "!#$%&'*+-.^_|~".data.contains c || c = Char.ofNat 96

/-- The loop of `textproto.CanonicalMIMEHeaderKey`: the first letter and every letter after
a hyphen in upper case, the other letters in lower case. -/
def canonicalLoop (upper : Bool) : List Char → List Char
  | [] => []
  | c :: cs =>
    (if upper then c.toUpper else c.toLower) :: canonicalLoop (decide (c = '-')) cs

/-- The function `textproto.CanonicalMIMEHeaderKey`: a key with a byte that is not admitted
is returned unchanged. -/
def CanonicalMIMEHeaderKey (key : String) : String :=
  if key.data.all validHeaderFieldByte then String.mk (canonicalLoop true key.data) else key

/-- The method `http.Header.Set`: the values of the canonical key are replaced by the one
value. -/
def headerSet (h : List (String × String)) (key value : String) : List (String × String) :=
  (CanonicalMIMEHeaderKey key, value) ::
    h.filter fun p => decide (p.1 ≠ CanonicalMIMEHeaderKey key)

/-- The method `http.Header.Get`: the first value of the canonical key, or the empty
string. -/
def headerGet (h : List (String × String)) (key : String) : String :=
  (h.lookup (CanonicalMIMEHeaderKey key)).getD ""

/-- The call `w.Header().Set(key, value)`. -/
def Exec.headerSet {σ : Type} (x : Exec σ) (key value : String) : Exec σ :=
  { x with w := { x.w with Header := WolfDynasty.headerSet x.w.Header key value } }

/-- The constant `http.MethodOptions`. -/
def MethodOptions : String := "OPTIONS"

/-- The function `CorsHandler`. -/
def CorsHandler {σ : Type} (h : Handler σ) : Handler σ := fun r x =>
  let x1 := x.headerSet "access-control-allow-origin" "*"
  if r.Method = MethodOptions then
    let x2 := x1.headerSet "access-control-allow-headers" "authorization"
    x2.headerSet "access-control-allow-methods" "PATCH,PUT,POST,OPTIONS,GET,DELETE"
  else h r x1

/-- An `OPTIONS /v1/teams` request. -/
def optionsRequest : Request :=
  ⟨"OPTIONS", "/v1/teams", "", []⟩

/-! ## `strings.Contains` is the substring test -/

/-- The search loop finds a position exactly when `substr` occurs in the text as a
contiguous block. -/
theorem stringsIndexFrom_nonneg_iff (substr : List Char) (l : List Char) (i : Nat) :
    0 ≤ stringsIndexFrom substr l i ↔ substr <:+: l := by
  induction l generalizing i with
  | nil =>
    unfold stringsIndexFrom
    by_cases h : substr.isPrefixOf [] = true
    · have hp : substr <+: [] := List.isPrefixOf_iff_prefix.mp h
      simp [h, hp.isInfix]
    · have hp : ¬ substr <+: [] := fun hp => h (List.isPrefixOf_iff_prefix.mpr hp)
      have hi : ¬ substr <:+: [] := fun hi => hp (by
        have := List.eq_nil_of_infix_nil hi
        subst this; exact List.prefix_refl _)
      simp [h, hi]
  | cons c cs ih =>
    unfold stringsIndexFrom
    by_cases h : substr.isPrefixOf (c :: cs) = true
    · have hp : substr <+: c :: cs := List.isPrefixOf_iff_prefix.mp h
      simp [h, hp.isInfix]
    · have hp : ¬ substr <+: c :: cs := fun hp => h (List.isPrefixOf_iff_prefix.mpr hp)
      rw [if_neg h, ih (i + 1), List.infix_cons_iff]
      simp [hp]

/-- The function `stringsContains` decides whether `substr` occurs in `s`. -/
theorem stringsContains_iff_infix (s substr : String) :
    stringsContains s substr = true ↔ substr.data <:+: s.data := by
  unfold stringsContains stringsIndex
  rw [decide_eq_true_iff]
  exact stringsIndexFrom_nonneg_iff _ _ _

/-! ## What `UpdateTeam` and `CreateTeam` hand to the client -/

/-- The calls of `UpdateTeam` once the body decodes and `GetTeam` succeeds. -/
theorem UpdateTeam_calls_of_fetched {σ : Type} (th : teamsHandler σ) (rt : Runtime σ)
    (r : Request) (s : σ) (hdec : (rt.Decode r.Body).2 = none)
    (hget : (th.SQLClient.GetTeam (muxVars r "guid") s).1.2 = none) :
    (th.UpdateTeam rt r (Exec.start s)).calls =
      [Call.GetTeam (muxVars r "guid"),
        Call.UpdateTeam
          { ID := (th.SQLClient.GetTeam (muxVars r "guid") s).1.1.ID
            Name := (rt.Decode r.Body).1.Name
            CreatedAt := (th.SQLClient.GetTeam (muxVars r "guid") s).1.1.CreatedAt
            UpdatedAt := (rt.Now (th.SQLClient.GetTeam (muxVars r "guid") s).2).1 }] := by
  unfold teamsHandler.UpdateTeam
  simp only [hdec, Exec.start, hget]
  split <;> simp [Exec.writeJSON, Exec.writeJSONError, Exec.logPrintln]

/-- C1: when the body decodes and `GetTeam` succeeds, the `Update` handler calls
`UpdateTeam` exactly once, with a Team that has the id and the created_at of the fetched
Team, the name of the decoded body and the clock reading as updated_at; and a second
request to the same guid whose body decodes to the same name, whatever id, created_at and
updated_at it carries, passes the same Team. -/
theorem UpdateTeam_passes_merged_team {σ : Type} (th : teamsHandler σ) (rt : Runtime σ)
    (r : Request) (s : σ) (hdec : (rt.Decode r.Body).2 = none)
    (hget : (th.SQLClient.GetTeam (muxVars r "guid") s).1.2 = none) :
    updateTeamArgs (th.UpdateTeam rt r (Exec.start s)).calls =
        [{ ID := (th.SQLClient.GetTeam (muxVars r "guid") s).1.1.ID
           Name := (rt.Decode r.Body).1.Name
           CreatedAt := (th.SQLClient.GetTeam (muxVars r "guid") s).1.1.CreatedAt
           UpdatedAt := (rt.Now (th.SQLClient.GetTeam (muxVars r "guid") s).2).1 }] ∧
      ∀ r2 : Request, muxVars r2 "guid" = muxVars r "guid" →
        (rt.Decode r2.Body).2 = none →
        (rt.Decode r2.Body).1.Name = (rt.Decode r.Body).1.Name →
        updateTeamArgs (th.UpdateTeam rt r2 (Exec.start s)).calls =
          updateTeamArgs (th.UpdateTeam rt r (Exec.start s)).calls := by
  refine ⟨?_, ?_⟩
  · rw [UpdateTeam_calls_of_fetched th rt r s hdec hget]
    simp [updateTeamArgs]
  · intro r2 hguid hdec2 hname
    rw [UpdateTeam_calls_of_fetched th rt r s hdec hget,
      UpdateTeam_calls_of_fetched th rt r2 s hdec2 (by rw [hguid]; exact hget)]
    simp [updateTeamArgs, hguid, hname]

/-- Witness for C1: the fetched Team `1` created at 5 is renamed at clock reading 100, and
a body that carries its own id and timestamps passes the same Team. -/
theorem UpdateTeam_passes_merged_team_witness :
    (fakeRuntime.Decode (patchRequest bodyRenamed).Body).2 = none ∧
    (fakeHandler.SQLClient.GetTeam (muxVars (patchRequest bodyRenamed) "guid") worldOK).1.2
      = none ∧
    updateTeamArgs
        (fakeHandler.UpdateTeam fakeRuntime (patchRequest bodyRenamed) (Exec.start worldOK)).calls
      = [⟨"1", "Renamed", 5, 100⟩] ∧
    updateTeamArgs
        (fakeHandler.UpdateTeam fakeRuntime (patchRequest bodyRenamedFull)
          (Exec.start worldOK)).calls
      = updateTeamArgs
        (fakeHandler.UpdateTeam fakeRuntime (patchRequest bodyRenamed) (Exec.start worldOK)).calls :=
  ⟨by decide, by decide,
    (UpdateTeam_passes_merged_team fakeHandler fakeRuntime (patchRequest bodyRenamed) worldOK
      (by decide) (by decide)).1,
    (UpdateTeam_passes_merged_team fakeHandler fakeRuntime (patchRequest bodyRenamed) worldOK
      (by decide) (by decide)).2 (patchRequest bodyRenamedFull) (by decide) (by decide)
      (by decide)⟩

/-- C2: when the body decodes, the `Create` handler calls `AddTeam` exactly once, with a
Team whose id is the generated identifier, whose created_at and updated_at are both the one
clock reading taken after it, and whose name is the decoded name; the id and the timestamps
of the body do not appear in it. -/
theorem CreateTeam_passes_fresh_team {σ : Type} (th : teamsHandler σ) (rt : Runtime σ)
    (r : Request) (s : σ) (hdec : (rt.Decode r.Body).2 = none) :
    addTeamArgs (th.CreateTeam rt r (Exec.start s)).calls =
      [{ ID := (rt.NewUUID s).1
         Name := (rt.Decode r.Body).1.Name
         CreatedAt := (rt.Now (rt.NewUUID s).2).1
         UpdatedAt := (rt.Now (rt.NewUUID s).2).1 }] := by
  unfold teamsHandler.CreateTeam
  simp only [hdec, Exec.start]
  split <;> simp [Exec.writeJSON, Exec.writeJSONError, Exec.logPrintln, addTeamArgs]

/-- Witness for C2: a body that carries the id `1` and its own timestamps is stored under
the generated id `uuid-a` with both timestamps at the clock reading 100. -/
theorem CreateTeam_passes_fresh_team_witness :
    (fakeRuntime.Decode (postRequest bodyRenamedFull).Body) =
      (⟨"1", "Renamed", 7000000000, 9000000000⟩, none) ∧
    addTeamArgs
        (fakeHandler.CreateTeam fakeRuntime (postRequest bodyRenamedFull)
          (Exec.start worldOK)).calls
      = [⟨"uuid-a", "Renamed", 100, 100⟩] :=
  ⟨by decide,
    CreateTeam_passes_fresh_team fakeHandler fakeRuntime (postRequest bodyRenamedFull) worldOK
      (by decide)⟩

/-! ## Absence and fetch failures -/

/-- Counterexample to C3 as stated: the store reports absence for the guid, yet a `PATCH`
with an empty body is answered 400, not 404, because the body is decoded before the Team is
fetched. -/
theorem UpdateTeam_absent_undecodable_not_404 :
    (fakeHandler.SQLClient.GetTeam (muxVars (patchRequest "") "guid") worldAbsent).1.2
      = some "no rows found" ∧
    stringsContains "no rows found" "no rows" = true ∧
    statuses (fakeHandler.UpdateTeam fakeRuntime (patchRequest "") (Exec.start worldAbsent))
      = [400] ∧
    statuses (fakeHandler.UpdateTeam fakeRuntime (patchRequest "") (Exec.start worldAbsent))
      ≠ [StatusNotFound] := by
  decide

/-- C3, amended: if the client's `GetTeam` fails for the guid with a text that contains
`no rows`, then `Delete` answers 404, `Update` answers 404 when its body decodes and 400
when it does not, and neither ever answers 500. -/
theorem absent_team_is_404_never_500 {σ : Type} (th : teamsHandler σ) (rt : Runtime σ)
    (r : Request) (s : σ) (e : String)
    (hget : (th.SQLClient.GetTeam (muxVars r "guid") s).1.2 = some e)
    (hrows : stringsContains e "no rows" = true) :
    statuses (th.DeleteTeam r (Exec.start s)) = [StatusNotFound] ∧
    ((rt.Decode r.Body).2 = none →
      statuses (th.UpdateTeam rt r (Exec.start s)) = [StatusNotFound]) ∧
    ((rt.Decode r.Body).2 ≠ none →
      statuses (th.UpdateTeam rt r (Exec.start s)) = [StatusBadRequest]) ∧
    StatusInternalServerError ∉ statuses (th.DeleteTeam r (Exec.start s)) ∧
    StatusInternalServerError ∉ statuses (th.UpdateTeam rt r (Exec.start s)) := by
  have hdel : statuses (th.DeleteTeam r (Exec.start s)) = [StatusNotFound] := by
    unfold teamsHandler.DeleteTeam
    simp [Exec.start, hget, hrows, statuses, Exec.writeJSONError, Exec.logPrintln,
      writeJSONError]
  have hok : (rt.Decode r.Body).2 = none →
      statuses (th.UpdateTeam rt r (Exec.start s)) = [StatusNotFound] := by
    intro hdec
    unfold teamsHandler.UpdateTeam
    simp [Exec.start, hdec, hget, hrows, statuses, Exec.writeJSONError, Exec.logPrintln,
      writeJSONError]
  have hbad : (rt.Decode r.Body).2 ≠ none →
      statuses (th.UpdateTeam rt r (Exec.start s)) = [StatusBadRequest] := by
    intro hdec
    obtain ⟨d, hd⟩ := Option.ne_none_iff_exists'.mp hdec
    unfold teamsHandler.UpdateTeam
    simp [Exec.start, hd, statuses, Exec.writeJSONError, Exec.logPrintln, writeJSONError]
  refine ⟨hdel, hok, hbad, ?_, ?_⟩
  · rw [hdel]; decide
  · cases hdec : (rt.Decode r.Body).2 with
    | none => rw [hok hdec]; decide
    | some d => rw [hbad (by simp [hdec])]; decide

/-- Witness for C3: with `GetTeam` failing with `no rows found`, `DELETE` and a decodable
`PATCH` are answered 404 and a `PATCH` with an empty body 400. -/
theorem absent_team_is_404_never_500_witness :
    statuses (fakeHandler.DeleteTeam (patchRequest bodyRenamed) (Exec.start worldAbsent))
      = [404] ∧
    statuses (fakeHandler.UpdateTeam fakeRuntime (patchRequest bodyRenamed)
      (Exec.start worldAbsent)) = [404] ∧
    statuses (fakeHandler.UpdateTeam fakeRuntime (patchRequest "") (Exec.start worldAbsent))
      = [400] :=
  ⟨(absent_team_is_404_never_500 fakeHandler fakeRuntime (patchRequest bodyRenamed)
      worldAbsent "no rows found" (by decide) (by decide)).1,
    (absent_team_is_404_never_500 fakeHandler fakeRuntime (patchRequest bodyRenamed)
      worldAbsent "no rows found" (by decide) (by decide)).2.1 (by decide),
    (absent_team_is_404_never_500 fakeHandler fakeRuntime (patchRequest "")
      worldAbsent "no rows found" (by decide) (by decide)).2.2.1 (by decide)⟩

/-- C4: when the body decodes and `GetTeam` fails with the text `e`, the `Update` handler
writes one response, 404 with the message `No team found for guid '<guid>'` if `e` contains
`no rows` and 500 with the message `e` otherwise, and in both cases it calls `GetTeam` once
and `UpdateTeam` not at all. -/
theorem UpdateTeam_fetch_failure {σ : Type} (th : teamsHandler σ) (rt : Runtime σ)
    (r : Request) (s : σ) (e : String) (hdec : (rt.Decode r.Body).2 = none)
    (hget : (th.SQLClient.GetTeam (muxVars r "guid") s).1.2 = some e) :
    (stringsContains e "no rows" = true →
      responses (th.UpdateTeam rt r (Exec.start s)) =
        [(StatusNotFound,
          some (JSONBody.error ("No team found for guid '" ++ muxVars r "guid" ++ "'")))]) ∧
    (stringsContains e "no rows" = false →
      responses (th.UpdateTeam rt r (Exec.start s)) =
        [(StatusInternalServerError, some (JSONBody.error e))]) ∧
    (th.UpdateTeam rt r (Exec.start s)).calls = [Call.GetTeam (muxVars r "guid")] ∧
    updateTeamArgs (th.UpdateTeam rt r (Exec.start s)).calls = [] := by
  unfold teamsHandler.UpdateTeam
  simp only [hdec, Exec.start, hget]
  cases hrows : stringsContains e "no rows" <;>
    simp [responses, updateTeamArgs, Exec.writeJSONError, Exec.logPrintln, writeJSONError,
      noTeamFoundMessage]

/-- Witness for C4: `no rows found` gives 404 naming `some-guid`, `some error` gives 500
with that text. -/
theorem UpdateTeam_fetch_failure_witness :
    responses (fakeHandler.UpdateTeam fakeRuntime (patchRequest bodyRenamed)
        (Exec.start worldAbsent))
      = [(404, some (JSONBody.error "No team found for guid 'some-guid'"))] ∧
    responses (fakeHandler.UpdateTeam fakeRuntime (patchRequest bodyRenamed)
        (Exec.start worldGetFails))
      = [(500, some (JSONBody.error "some error"))] ∧
    updateTeamArgs (fakeHandler.UpdateTeam fakeRuntime (patchRequest bodyRenamed)
        (Exec.start worldGetFails)).calls = [] :=
  ⟨(UpdateTeam_fetch_failure fakeHandler fakeRuntime (patchRequest bodyRenamed) worldAbsent
      "no rows found" (by decide) (by decide)).1 (by decide),
    (UpdateTeam_fetch_failure fakeHandler fakeRuntime (patchRequest bodyRenamed) worldGetFails
      "some error" (by decide) (by decide)).2.1 (by decide),
    (UpdateTeam_fetch_failure fakeHandler fakeRuntime (patchRequest bodyRenamed) worldGetFails
      "some error" (by decide) (by decide)).2.2.2⟩

/-! ## Bodies that fail to decode -/

/-- C5: when the body fails to decode with the text `e`, the `Create` handler writes one
response, 400 with the message `e`, calls no client method (so not `AddTeam`), and leaves
the world as it found it. -/
theorem CreateTeam_decode_failure {σ : Type} (th : teamsHandler σ) (rt : Runtime σ)
    (r : Request) (s : σ) (e : String) (hdec : (rt.Decode r.Body).2 = some e) :
    responses (th.CreateTeam rt r (Exec.start s)) =
      [(StatusBadRequest, some (JSONBody.error e))] ∧
    (th.CreateTeam rt r (Exec.start s)).calls = [] ∧
    addTeamArgs (th.CreateTeam rt r (Exec.start s)).calls = [] ∧
    (th.CreateTeam rt r (Exec.start s)).world = s := by
  unfold teamsHandler.CreateTeam
  simp [hdec, Exec.start, responses, addTeamArgs, Exec.writeJSONError, Exec.logPrintln,
    writeJSONError]

/-- Witness for C5: the empty body is answered 400 with the text `EOF`, and the malformed
body of the tests 400 with the parser's text. -/
theorem CreateTeam_decode_failure_witness :
    responses (fakeHandler.CreateTeam fakeRuntime (postRequest "") (Exec.start worldOK))
      = [(400, some (JSONBody.error "EOF"))] ∧
    statuses (fakeHandler.CreateTeam fakeRuntime (postRequest "\x7bbad:json\x7d")
      (Exec.start worldOK)) = [400] ∧
    (fakeHandler.CreateTeam fakeRuntime (postRequest "") (Exec.start worldOK)).calls = [] :=
  ⟨(CreateTeam_decode_failure fakeHandler fakeRuntime (postRequest "") worldOK "EOF"
      (by decide)).1,
    congrArg (List.map Prod.fst)
      (CreateTeam_decode_failure fakeHandler fakeRuntime (postRequest "\x7bbad:json\x7d")
        worldOK "invalid character 'b' looking for beginning of object key string"
        (by decide)).1,
    (CreateTeam_decode_failure fakeHandler fakeRuntime (postRequest "") worldOK "EOF"
      (by decide)).2.1⟩

/-- C6: when the body fails to decode, the `Update` handler answers 400 and calls no client
method, so neither `GetTeam` nor `UpdateTeam`, whatever the guid and the client. -/
theorem UpdateTeam_decode_failure {σ : Type} (th : teamsHandler σ) (rt : Runtime σ)
    (r : Request) (s : σ) (hdec : (rt.Decode r.Body).2 ≠ none) :
    statuses (th.UpdateTeam rt r (Exec.start s)) = [StatusBadRequest] ∧
    (th.UpdateTeam rt r (Exec.start s)).calls = [] ∧
    getTeamArgs (th.UpdateTeam rt r (Exec.start s)).calls = [] ∧
    updateTeamArgs (th.UpdateTeam rt r (Exec.start s)).calls = [] := by
  obtain ⟨e, he⟩ := Option.ne_none_iff_exists'.mp hdec
  unfold teamsHandler.UpdateTeam
  simp [he, Exec.start, statuses, getTeamArgs, updateTeamArgs, Exec.writeJSONError,
    Exec.logPrintln, writeJSONError]

/-- Witness for C6: an empty body sent to a guid the store does not know is answered 400
without any client call. -/
theorem UpdateTeam_decode_failure_witness :
    (fakeRuntime.Decode (patchRequest "").Body).2 ≠ none ∧
    statuses (fakeHandler.UpdateTeam fakeRuntime (patchRequest "") (Exec.start worldAbsent))
      = [400] ∧
    (fakeHandler.UpdateTeam fakeRuntime (patchRequest "") (Exec.start worldAbsent)).calls
      = [] :=
  ⟨by decide,
    (UpdateTeam_decode_failure fakeHandler fakeRuntime (patchRequest "") worldAbsent
      (by decide)).1,
    (UpdateTeam_decode_failure fakeHandler fakeRuntime (patchRequest "") worldAbsent
      (by decide)).2.1⟩

/-! ## The timestamps passed by `UpdateTeam` -/

/-- Counterexample to C7 as stated: the fetched Team was created at instant 200 and the
clock reads 100, so the Team passed to `UpdateTeam` has updated_at 100, before its
created_at 200. -/
theorem UpdateTeam_updated_before_created :
    updateTeamArgs
        (fakeHandler.UpdateTeam fakeRuntime (patchRequest bodyRenamed)
          (Exec.start worldCreatedLater)).calls
      = [⟨"1", "Renamed", 200, 100⟩] ∧
    ¬ ∀ t ∈ updateTeamArgs
        (fakeHandler.UpdateTeam fakeRuntime (patchRequest bodyRenamed)
          (Exec.start worldCreatedLater)).calls,
      t.UpdatedAt ≥ t.CreatedAt := by
  decide

/-- C7, amended: when the body decodes, `GetTeam` succeeds and the created_at of the fetched
Team is not later than the clock reading taken by the handler, the one Team passed to
`UpdateTeam` satisfies updated_at >= created_at. -/
theorem UpdateTeam_updated_not_before_created {σ : Type} (th : teamsHandler σ)
    (rt : Runtime σ) (r : Request) (s : σ) (hdec : (rt.Decode r.Body).2 = none)
    (hget : (th.SQLClient.GetTeam (muxVars r "guid") s).1.2 = none)
    (hclock : (th.SQLClient.GetTeam (muxVars r "guid") s).1.1.CreatedAt ≤
      (rt.Now (th.SQLClient.GetTeam (muxVars r "guid") s).2).1) :
    (updateTeamArgs (th.UpdateTeam rt r (Exec.start s)).calls).length = 1 ∧
    ∀ t ∈ updateTeamArgs (th.UpdateTeam rt r (Exec.start s)).calls,
      t.UpdatedAt ≥ t.CreatedAt := by
  rw [UpdateTeam_calls_of_fetched th rt r s hdec hget]
  simp [updateTeamArgs]
  exact hclock

/-- Witness for C7: the Team created at 5 and updated at clock reading 100. -/
theorem UpdateTeam_updated_not_before_created_witness :
    (fakeHandler.SQLClient.GetTeam (muxVars (patchRequest bodyRenamed) "guid") worldOK).1.1.CreatedAt
      ≤ (fakeRuntime.Now
          (fakeHandler.SQLClient.GetTeam (muxVars (patchRequest bodyRenamed) "guid") worldOK).2).1 ∧
    ∀ t ∈ updateTeamArgs
        (fakeHandler.UpdateTeam fakeRuntime (patchRequest bodyRenamed) (Exec.start worldOK)).calls,
      t.UpdatedAt ≥ t.CreatedAt :=
  ⟨by decide,
    (UpdateTeam_updated_not_before_created fakeHandler fakeRuntime (patchRequest bodyRenamed)
      worldOK (by decide) (by decide) (by decide)).2⟩

/-! ## Outcomes of the write calls -/

/-- C8: when `GetTeam` succeeds the `Delete` handler calls `DeleteTeam` once, with exactly
the fetched Team; a failure `e` of that call is answered 500 with the message `e`, a success
204 with a nil payload, written without a body; when `GetTeam` fails `DeleteTeam` is not
called. -/
theorem DeleteTeam_outcome {σ : Type} (th : teamsHandler σ) (r : Request) (s : σ) :
    ((th.SQLClient.GetTeam (muxVars r "guid") s).1.2 = none →
      deleteTeamArgs (th.DeleteTeam r (Exec.start s)).calls =
        [(th.SQLClient.GetTeam (muxVars r "guid") s).1.1] ∧
      (∀ e : String,
        (th.SQLClient.DeleteTeam (th.SQLClient.GetTeam (muxVars r "guid") s).1.1
          (th.SQLClient.GetTeam (muxVars r "guid") s).2).1 = some e →
        responses (th.DeleteTeam r (Exec.start s)) =
          [(StatusInternalServerError, some (JSONBody.error e))]) ∧
      ((th.SQLClient.DeleteTeam (th.SQLClient.GetTeam (muxVars r "guid") s).1.1
          (th.SQLClient.GetTeam (muxVars r "guid") s).2).1 = none →
        (th.DeleteTeam r (Exec.start s)).w =
          writeJSON ⟨[], []⟩ Payload.null StatusNoContent ∧
        responses (th.DeleteTeam r (Exec.start s)) = [(StatusNoContent, none)])) ∧
    ((th.SQLClient.GetTeam (muxVars r "guid") s).1.2 ≠ none →
      deleteTeamArgs (th.DeleteTeam r (Exec.start s)).calls = []) := by
  refine ⟨fun hget => ⟨?_, ?_, ?_⟩, fun hget => ?_⟩
  · unfold teamsHandler.DeleteTeam
    simp only [Exec.start, hget]
    split <;> simp [deleteTeamArgs, Exec.writeJSON, Exec.writeJSONError, Exec.logPrintln]
  · intro e hdel
    unfold teamsHandler.DeleteTeam
    simp [Exec.start, hget, hdel, responses, Exec.writeJSONError, Exec.logPrintln,
      writeJSONError]
  · intro hdel
    unfold teamsHandler.DeleteTeam
    simp [Exec.start, hget, hdel, responses, Exec.writeJSON, writeJSON]
  · obtain ⟨e, he⟩ := Option.ne_none_iff_exists'.mp hget
    unfold teamsHandler.DeleteTeam
    simp only [Exec.start, he]
    split <;> simp [deleteTeamArgs, Exec.writeJSONError, Exec.logPrintln]

/-- Witness for C8: the fetched Team is deleted and answered 204 without a body; a failing
`DeleteTeam` is answered 500; an absent Team is not deleted. -/
theorem DeleteTeam_outcome_witness :
    deleteTeamArgs (fakeHandler.DeleteTeam (deleteRequest "") (Exec.start worldOK)).calls
      = [⟨"1", "Some Lame team", 5, 5⟩] ∧
    responses (fakeHandler.DeleteTeam (deleteRequest "") (Exec.start worldOK))
      = [(204, none)] ∧
    responses (fakeHandler.DeleteTeam (deleteRequest "") (Exec.start worldWriteFails))
      = [(500, some (JSONBody.error "some error"))] ∧
    deleteTeamArgs (fakeHandler.DeleteTeam (deleteRequest "") (Exec.start worldAbsent)).calls
      = [] :=
  ⟨((DeleteTeam_outcome fakeHandler (deleteRequest "") worldOK).1 (by decide)).1,
    (((DeleteTeam_outcome fakeHandler (deleteRequest "") worldOK).1 (by decide)).2.2
      (by decide)).2,
    ((DeleteTeam_outcome fakeHandler (deleteRequest "") worldWriteFails).1 (by decide)).2.1
      "some error" (by decide),
    (DeleteTeam_outcome fakeHandler (deleteRequest "") worldAbsent).2 (by decide)⟩

/-- C9: when the body decodes, the response of the `Create` handler follows the result of
its `AddTeam` call: a failure `e` is answered 500 with the message `e`, a success 201 with
the Team that `AddTeam` returned as payload. -/
theorem CreateTeam_outcome {σ : Type} (th : teamsHandler σ) (rt : Runtime σ) (r : Request)
    (s : σ) (hdec : (rt.Decode r.Body).2 = none) :
    (∀ e : String,
      (th.SQLClient.AddTeam
          { ID := (rt.NewUUID s).1
            Name := (rt.Decode r.Body).1.Name
            CreatedAt := (rt.Now (rt.NewUUID s).2).1
            UpdatedAt := (rt.Now (rt.NewUUID s).2).1 }
          (rt.Now (rt.NewUUID s).2).2).1.2 = some e →
      responses (th.CreateTeam rt r (Exec.start s)) =
        [(StatusInternalServerError, some (JSONBody.error e))]) ∧
    ((th.SQLClient.AddTeam
          { ID := (rt.NewUUID s).1
            Name := (rt.Decode r.Body).1.Name
            CreatedAt := (rt.Now (rt.NewUUID s).2).1
            UpdatedAt := (rt.Now (rt.NewUUID s).2).1 }
          (rt.Now (rt.NewUUID s).2).2).1.2 = none →
      responses (th.CreateTeam rt r (Exec.start s)) =
        [(StatusCreated,
          some (JSONBody.json (Payload.team
            (th.SQLClient.AddTeam
              { ID := (rt.NewUUID s).1
                Name := (rt.Decode r.Body).1.Name
                CreatedAt := (rt.Now (rt.NewUUID s).2).1
                UpdatedAt := (rt.Now (rt.NewUUID s).2).1 }
              (rt.Now (rt.NewUUID s).2).2).1.1)))]) := by
  refine ⟨fun e hadd => ?_, fun hadd => ?_⟩
  · unfold teamsHandler.CreateTeam
    simp [Exec.start, hdec, hadd, responses, Exec.writeJSONError, Exec.logPrintln,
      writeJSONError]
  · unfold teamsHandler.CreateTeam
    simp [Exec.start, hdec, hadd, responses, Exec.writeJSON, writeJSON]

/-- Witness for C9: the handler builds the Team `uuid-a` stamped 100, the store returns the
Team `stored` stamped 40 and 41, and the 201 response carries the latter; a failing
`AddTeam` is answered 500. -/
theorem CreateTeam_outcome_witness :
    addTeamArgs
        (fakeHandler.CreateTeam fakeRuntime (postRequest bodyRenamed) (Exec.start worldOK)).calls
      = [⟨"uuid-a", "Renamed", 100, 100⟩] ∧
    responses (fakeHandler.CreateTeam fakeRuntime (postRequest bodyRenamed) (Exec.start worldOK))
      = [(201, some (JSONBody.json (Payload.team ⟨"stored", "Awesome Team", 40, 41⟩)))] ∧
    responses (fakeHandler.CreateTeam fakeRuntime (postRequest bodyRenamed)
        (Exec.start worldWriteFails))
      = [(500, some (JSONBody.error "some error"))] :=
  ⟨by decide,
    (CreateTeam_outcome fakeHandler fakeRuntime (postRequest bodyRenamed) worldOK
      (by decide)).2 (by decide),
    (CreateTeam_outcome fakeHandler fakeRuntime (postRequest bodyRenamed) worldWriteFails
      (by decide)).1 "some error" (by decide)⟩

/-- C10: when the body decodes and `GetTeam` succeeds, the response of the `Update` handler
follows the result of its `UpdateTeam` call: a failure `e` is answered 500 with the message
`e`, a success 200 with the Team that `UpdateTeam` returned as payload. -/
theorem UpdateTeam_outcome {σ : Type} (th : teamsHandler σ) (rt : Runtime σ) (r : Request)
    (s : σ) (hdec : (rt.Decode r.Body).2 = none)
    (hget : (th.SQLClient.GetTeam (muxVars r "guid") s).1.2 = none) :
    (∀ e : String,
      (th.SQLClient.UpdateTeam
          { ID := (th.SQLClient.GetTeam (muxVars r "guid") s).1.1.ID
            Name := (rt.Decode r.Body).1.Name
            CreatedAt := (th.SQLClient.GetTeam (muxVars r "guid") s).1.1.CreatedAt
            UpdatedAt := (rt.Now (th.SQLClient.GetTeam (muxVars r "guid") s).2).1 }
          (rt.Now (th.SQLClient.GetTeam (muxVars r "guid") s).2).2).1.2 = some e →
      responses (th.UpdateTeam rt r (Exec.start s)) =
        [(StatusInternalServerError, some (JSONBody.error e))]) ∧
    ((th.SQLClient.UpdateTeam
          { ID := (th.SQLClient.GetTeam (muxVars r "guid") s).1.1.ID
            Name := (rt.Decode r.Body).1.Name
            CreatedAt := (th.SQLClient.GetTeam (muxVars r "guid") s).1.1.CreatedAt
            UpdatedAt := (rt.Now (th.SQLClient.GetTeam (muxVars r "guid") s).2).1 }
          (rt.Now (th.SQLClient.GetTeam (muxVars r "guid") s).2).2).1.2 = none →
      responses (th.UpdateTeam rt r (Exec.start s)) =
        [(StatusOK,
          some (JSONBody.json (Payload.team
            (th.SQLClient.UpdateTeam
              { ID := (th.SQLClient.GetTeam (muxVars r "guid") s).1.1.ID
                Name := (rt.Decode r.Body).1.Name
                CreatedAt := (th.SQLClient.GetTeam (muxVars r "guid") s).1.1.CreatedAt
                UpdatedAt := (rt.Now (th.SQLClient.GetTeam (muxVars r "guid") s).2).1 }
              (rt.Now (th.SQLClient.GetTeam (muxVars r "guid") s).2).2).1.1)))]) := by
  refine ⟨fun e hupd => ?_, fun hupd => ?_⟩
  · unfold teamsHandler.UpdateTeam
    simp [Exec.start, hdec, hget, hupd, responses, Exec.writeJSONError, Exec.logPrintln,
      writeJSONError]
  · unfold teamsHandler.UpdateTeam
    simp [Exec.start, hdec, hget, hupd, responses, Exec.writeJSON, writeJSON]

/-- Witness for C10: the 200 response carries the Team the store returned, and a failing
`UpdateTeam` is answered 500. -/
theorem UpdateTeam_outcome_witness :
    responses (fakeHandler.UpdateTeam fakeRuntime (patchRequest bodyRenamed)
        (Exec.start worldOK))
      = [(200, some (JSONBody.json (Payload.team ⟨"1", "Awesome Team", 5, 6⟩)))] ∧
    responses (fakeHandler.UpdateTeam fakeRuntime (patchRequest bodyRenamed)
        (Exec.start worldWriteFails))
      = [(500, some (JSONBody.error "some error"))] :=
  ⟨(UpdateTeam_outcome fakeHandler fakeRuntime (patchRequest bodyRenamed) worldOK
      (by decide) (by decide)).2 (by decide),
    (UpdateTeam_outcome fakeHandler fakeRuntime (patchRequest bodyRenamed) worldWriteFails
      (by decide) (by decide)).1 "some error" (by decide)⟩

/-! ## The list handler -/

/-- C11: the `List` handler answers with one response that follows the result of the
client's list operation: on success 200 with exactly the sequence of Teams the client
returned as payload, on a failure `e` 500 with the message `e` as error body. -/
theorem GetTeams_outcome {σ : Type} (th : teamsHandler σ) (r : Request) (s : σ) :
    ((th.SQLClient.GetTeams s).1.2 = none →
      responses (th.GetTeams r (Exec.start s)) =
        [(StatusOK, some (JSONBody.json (Payload.teams (th.SQLClient.GetTeams s).1.1)))]) ∧
    (∀ e : String, (th.SQLClient.GetTeams s).1.2 = some e →
      responses (th.GetTeams r (Exec.start s)) =
        [(StatusInternalServerError, some (JSONBody.error e))]) := by
  refine ⟨fun hok => ?_, fun e herr => ?_⟩
  · unfold teamsHandler.GetTeams
    simp [Exec.start, hok, responses, Exec.writeJSON, writeJSON]
  · unfold teamsHandler.GetTeams
    simp [Exec.start, herr, responses, Exec.writeJSONError, Exec.logPrintln, writeJSONError]

/-- Witness for C11: two Teams come back in the order of the store, an empty store gives
the empty sequence, and a failing list operation is answered 500 with its text. -/
theorem GetTeams_outcome_witness :
    responses (fakeHandler.GetTeams listRequest (Exec.start worldTwoTeams))
      = [(200, some (JSONBody.json
          (Payload.teams [⟨"2", "Second", 8, 9⟩, ⟨"1", "Awesome Team", 5, 5⟩])))] ∧
    responses (fakeHandler.GetTeams listRequest (Exec.start worldNoTeams))
      = [(200, some (JSONBody.json (Payload.teams [])))] ∧
    responses (fakeHandler.GetTeams listRequest (Exec.start worldListFails))
      = [(500, some (JSONBody.error "some error"))] :=
  ⟨(GetTeams_outcome fakeHandler listRequest worldTwoTeams).1 (by decide),
    (GetTeams_outcome fakeHandler listRequest worldNoTeams).1 (by decide),
    (GetTeams_outcome fakeHandler listRequest worldListFails).2 "some error" (by decide)⟩

/-! ## Routing -/

/-- The four Team routes as `addTeamsHandler` registers them on a new router: each of the
four requests is dispatched to its Team handler, with the guid as route variable. -/
theorem addTeamsHandler_binds_team_routes {σ : Type} (rt : Runtime σ) (s : Services σ)
    (body : String) (vars : List (String × String)) (x : Exec σ) :
    (addTeamsHandler rt s []).ServeHTTP ⟨"GET", "/v1/teams", body, vars⟩ x =
      some ((teamsHandler.mk s.SQLClient).GetTeams ⟨"GET", "/v1/teams", body, []⟩ x) ∧
    (addTeamsHandler rt s []).ServeHTTP ⟨"POST", "/v1/teams", body, vars⟩ x =
      some ((teamsHandler.mk s.SQLClient).CreateTeam rt ⟨"POST", "/v1/teams", body, []⟩ x) ∧
    (addTeamsHandler rt s []).ServeHTTP ⟨"PATCH", "/v1/teams/some-guid", body, vars⟩ x =
      some ((teamsHandler.mk s.SQLClient).UpdateTeam rt
        ⟨"PATCH", "/v1/teams/some-guid", body, [("guid", "some-guid")]⟩ x) ∧
    (addTeamsHandler rt s []).ServeHTTP ⟨"DELETE", "/v1/teams/some-guid", body, vars⟩ x =
      some ((teamsHandler.mk s.SQLClient).DeleteTeam
        ⟨"DELETE", "/v1/teams/some-guid", body, [("guid", "some-guid")]⟩ x) := by
  refine ⟨rfl, rfl, rfl, rfl⟩

/-- C12, evaluated on the code: on a new router `AddRoutes` registers the health route
only, so a request for `/v1/teams` or `/v1/teams/<guid>` matches no route, whatever its
method, and is dispatched to no Team handler. -/
theorem AddRoutes_binds_no_team_route {σ : Type} (s : Services σ) (method guid body : String)
    (vars : List (String × String)) (x : Exec σ) :
    (AddRoutes s []).ServeHTTP ⟨method, "/v1/teams", body, vars⟩ x = none ∧
    (AddRoutes s []).ServeHTTP ⟨method, "/v1/teams/" ++ guid, body, vars⟩ x = none := by
  constructor
  · rfl
  · simp [AddRoutes, addHealthCheckHandler, Router.ServeHTTP, Router.Match, Route.Match,
      pathSegments, pathSegmentsFrom, matchSegments, templateVar]

/-! ## The CORS wrapper -/

/-- Dropping the entries of another key does not change a lookup. -/
theorem lookup_filter_ne (k k2 : String) (l : List (String × String)) (hne : k ≠ k2) :
    (l.filter fun p => decide (p.1 ≠ k2)).lookup k = l.lookup k := by
  induction l with
  | nil => rfl
  | cons p ps ih =>
    obtain ⟨a, b⟩ := p
    by_cases ha : a = k2
    · have hka : (k == k2) = false := by simp [hne]
      simp only [List.filter, ha, List.lookup, hka, ne_eq, not_true_eq_false, decide_False]
      exact ih
    · by_cases hk : k = a
      · subst hk
        simp [List.filter, ha, List.lookup]
      · have hka : (k == a) = false := by simp [hk]
        simp only [List.filter, ha, List.lookup, hka, ne_eq, not_false_eq_true, decide_True]
        exact ih

/-- A header reads back the value it was set to. -/
theorem headerGet_headerSet_same (h : List (String × String)) (key value : String) :
    headerGet (headerSet h key value) key = value := by
  simp [headerGet, headerSet, List.lookup]

/-- Setting a header leaves the headers of other canonical keys as they were. -/
theorem headerGet_headerSet_other (h : List (String × String)) (key key2 value : String)
    (hne : CanonicalMIMEHeaderKey key ≠ CanonicalMIMEHeaderKey key2) :
    headerGet (headerSet h key2 value) key = headerGet h key := by
  have hb : (CanonicalMIMEHeaderKey key == CanonicalMIMEHeaderKey key2) = false := by
    simp [hne]
  simp only [headerGet, headerSet, List.lookup, hb]
  rw [lookup_filter_ne _ _ _ hne]

/-- C13: `CorsHandler h` first sets `access-control-allow-origin` to `*`.  For the method
`OPTIONS` it then sets `access-control-allow-headers` and `access-control-allow-methods` and
returns: nothing is written, no client call is made, and the result does not depend on `h`.
For every other method the result is that of one run of `h` on the same request, started
on the state with the origin header set. -/
theorem CorsHandler_sets_headers {σ : Type} (h : Handler σ) (r : Request) (x : Exec σ) :
    headerGet (x.headerSet "access-control-allow-origin" "*").w.Header
      "access-control-allow-origin" = "*" ∧
    (r.Method = "OPTIONS" →
      headerGet (CorsHandler h r x).w.Header "access-control-allow-origin" = "*" ∧
      headerGet (CorsHandler h r x).w.Header "access-control-allow-headers"
        = "authorization" ∧
      headerGet (CorsHandler h r x).w.Header "access-control-allow-methods"
        = "PATCH,PUT,POST,OPTIONS,GET,DELETE" ∧
      (CorsHandler h r x).w.Written = x.w.Written ∧
      (CorsHandler h r x).calls = x.calls ∧
      (CorsHandler h r x).world = x.world ∧
      ∀ h2 : Handler σ, CorsHandler h2 r x = CorsHandler h r x) ∧
    (r.Method ≠ "OPTIONS" →
      CorsHandler h r x = h r (x.headerSet "access-control-allow-origin" "*")) := by
  refine ⟨?_, fun hm => ?_, fun hm => ?_⟩
  · simp [Exec.headerSet, headerGet_headerSet_same]
  · have hm2 : r.Method = MethodOptions := hm
    simp only [CorsHandler, hm2, if_true, Exec.headerSet]
    refine ⟨?_, ?_, ?_, by simp⟩
    · rw [headerGet_headerSet_other _ _ _ _ (by decide),
        headerGet_headerSet_other _ _ _ _ (by decide), headerGet_headerSet_same]
    · rw [headerGet_headerSet_other _ _ _ _ (by decide), headerGet_headerSet_same]
    · rw [headerGet_headerSet_same]
  · have hm2 : ¬ r.Method = MethodOptions := hm
    simp only [CorsHandler, hm2, if_false]

/-- Witness for C13: an `OPTIONS` request gets the three headers, no response body and no
client call; a `GET` request runs the list handler once, with the origin header set. -/
theorem CorsHandler_sets_headers_witness :
    (CorsHandler fakeHandler.GetTeams optionsRequest (Exec.start worldOK)).w =
      ⟨[("Access-Control-Allow-Methods", "PATCH,PUT,POST,OPTIONS,GET,DELETE"),
        ("Access-Control-Allow-Headers", "authorization"),
        ("Access-Control-Allow-Origin", "*")], []⟩ ∧
    (CorsHandler fakeHandler.GetTeams optionsRequest (Exec.start worldOK)).calls = [] ∧
    CorsHandler fakeHandler.GetTeams listRequest (Exec.start worldOK) =
      fakeHandler.GetTeams listRequest
        ((Exec.start worldOK).headerSet "access-control-allow-origin" "*") ∧
    (CorsHandler fakeHandler.GetTeams listRequest (Exec.start worldOK)).calls
      = [Call.GetTeams] ∧
    (CorsHandler fakeHandler.GetTeams listRequest (Exec.start worldOK)).w.Header
      = [("Access-Control-Allow-Origin", "*")] :=
  ⟨by decide,
    ((CorsHandler_sets_headers fakeHandler.GetTeams optionsRequest (Exec.start worldOK)).2.1
      (by decide)).2.2.2.2.1,
    (CorsHandler_sets_headers fakeHandler.GetTeams listRequest (Exec.start worldOK)).2.2
      (by decide),
    by decide, by decide⟩

/-! ## How a fetch failure is classified -/

/-- The statuses of `Delete` after a failed `GetTeam`, by the result of the text search. -/
theorem DeleteTeam_statuses_of_fetch_failure {σ : Type} (th : teamsHandler σ) (r : Request)
    (s : σ) (e : String)
    (hget : (th.SQLClient.GetTeam (muxVars r "guid") s).1.2 = some e) :
    statuses (th.DeleteTeam r (Exec.start s)) =
      [if stringsContains e "no rows" then StatusNotFound else StatusInternalServerError] := by
  unfold teamsHandler.DeleteTeam
  simp only [Exec.start, hget]
  cases stringsContains e "no rows" <;>
    simp [statuses, Exec.writeJSONError, Exec.logPrintln, writeJSONError]

/-- The statuses of `Update` after a failed `GetTeam`, by the result of the text search. -/
theorem UpdateTeam_statuses_of_fetch_failure {σ : Type} (th : teamsHandler σ)
    (rt : Runtime σ) (r : Request) (s : σ) (e : String)
    (hcalled : Call.GetTeam (muxVars r "guid") ∈ (th.UpdateTeam rt r (Exec.start s)).calls)
    (hget : (th.SQLClient.GetTeam (muxVars r "guid") s).1.2 = some e) :
    statuses (th.UpdateTeam rt r (Exec.start s)) =
      [if stringsContains e "no rows" then StatusNotFound else StatusInternalServerError] := by
  cases hdec : (rt.Decode r.Body).2 with
  | some d =>
    exfalso
    unfold teamsHandler.UpdateTeam at hcalled
    simp [hdec, Exec.start, Exec.writeJSONError, Exec.logPrintln] at hcalled
  | none =>
    unfold teamsHandler.UpdateTeam
    simp only [Exec.start, hdec, hget]
    cases stringsContains e "no rows" <;>
      simp [statuses, Exec.writeJSONError, Exec.logPrintln, writeJSONError]

/-- C14: after a `GetTeam` call that failed with the text `e`, `Delete` and `Update` answer
404 exactly when `no rows` occurs in `e` as a substring, and 500 exactly when it does not,
whatever the cause of the failure. -/
theorem fetch_failure_404_iff_no_rows {σ : Type} (th : teamsHandler σ) (rt : Runtime σ)
    (r : Request) (s : σ) (e : String)
    (hget : (th.SQLClient.GetTeam (muxVars r "guid") s).1.2 = some e) :
    (statuses (th.DeleteTeam r (Exec.start s)) = [StatusNotFound] ↔
      "no rows".data <:+: e.data) ∧
    (statuses (th.DeleteTeam r (Exec.start s)) = [StatusInternalServerError] ↔
      ¬ "no rows".data <:+: e.data) ∧
    (Call.GetTeam (muxVars r "guid") ∈ (th.UpdateTeam rt r (Exec.start s)).calls →
      (statuses (th.UpdateTeam rt r (Exec.start s)) = [StatusNotFound] ↔
        "no rows".data <:+: e.data) ∧
      (statuses (th.UpdateTeam rt r (Exec.start s)) = [StatusInternalServerError] ↔
        ¬ "no rows".data <:+: e.data)) := by
  have key : ∀ l : List Nat,
      l = [if stringsContains e "no rows" then StatusNotFound
        else StatusInternalServerError] →
      (l = [StatusNotFound] ↔ "no rows".data <:+: e.data) ∧
      (l = [StatusInternalServerError] ↔ ¬ "no rows".data <:+: e.data) := by
    intro l hl
    rw [← stringsContains_iff_infix, hl]
    cases stringsContains e "no rows" <;>
      simp [StatusNotFound, StatusInternalServerError]
  have hdel := key _ (DeleteTeam_statuses_of_fetch_failure th r s e hget)
  exact ⟨hdel.1, hdel.2, fun hcalled =>
    key _ (UpdateTeam_statuses_of_fetch_failure th rt r s e hcalled hget)⟩

/-- Witness for C14: the text of `sql.ErrNoRows` gives 404; a broken connection whose text
contains `no rows` gives 404 as well; an absence reported as `record not found` gives
500. -/
theorem fetch_failure_404_iff_no_rows_witness :
    "no rows".data <:+: "sql: no rows in result set".data ∧
    statuses (fakeHandler.DeleteTeam (deleteRequest "") (Exec.start worldErrNoRows))
      = [404] ∧
    "no rows".data <:+: "connection reset: no rows could be read".data ∧
    statuses (fakeHandler.UpdateTeam fakeRuntime (patchRequest bodyRenamed)
      (Exec.start worldBrokenNoRows)) = [404] ∧
    ¬ "no rows".data <:+: "record not found".data ∧
    statuses (fakeHandler.UpdateTeam fakeRuntime (patchRequest bodyRenamed)
      (Exec.start worldAbsentOtherText)) = [500] ∧
    statuses (fakeHandler.DeleteTeam (deleteRequest "") (Exec.start worldAbsentOtherText))
      = [500] :=
  ⟨( stringsContains_iff_infix _ _).mp (by decide),
    (fetch_failure_404_iff_no_rows fakeHandler fakeRuntime (deleteRequest "") worldErrNoRows
      "sql: no rows in result set" (by decide)).1.mpr
      (( stringsContains_iff_infix _ _).mp (by decide)),
    ( stringsContains_iff_infix _ _).mp (by decide),
    ((fetch_failure_404_iff_no_rows fakeHandler fakeRuntime (patchRequest bodyRenamed)
      worldBrokenNoRows "connection reset: no rows could be read" (by decide)).2.2
      (by decide)).1.mpr (( stringsContains_iff_infix _ _).mp (by decide)),
    fun h => absurd (( stringsContains_iff_infix _ _).mpr h) (by decide),
    ((fetch_failure_404_iff_no_rows fakeHandler fakeRuntime (patchRequest bodyRenamed)
      worldAbsentOtherText "record not found" (by decide)).2.2 (by decide)).2.mpr
      (fun h => absurd (( stringsContains_iff_infix _ _).mpr h) (by decide)),
    (fetch_failure_404_iff_no_rows fakeHandler fakeRuntime (deleteRequest "")
      worldAbsentOtherText "record not found" (by decide)).2.1.mpr
      (fun h => absurd (( stringsContains_iff_infix _ _).mpr h) (by decide))⟩

/-! ## One response, no retries -/

/-- The one path shape of `GetTeams`. -/
theorem GetTeams_shape {σ : Type} (th : teamsHandler σ) (r : Request) (s : σ) :
    (th.GetTeams r (Exec.start s)).calls = [Call.GetTeams] ∧
    (statuses (th.GetTeams r (Exec.start s)) = [StatusOK] ∨
      statuses (th.GetTeams r (Exec.start s)) = [StatusInternalServerError]) := by
  unfold teamsHandler.GetTeams
  simp only [Exec.start]
  split <;>
    simp [statuses, Exec.writeJSON, Exec.writeJSONError, Exec.logPrintln, writeJSON,
      writeJSONError]

/-- The two path shapes of `CreateTeam`. -/
theorem CreateTeam_shape {σ : Type} (th : teamsHandler σ) (rt : Runtime σ) (r : Request)
    (s : σ) :
    ((th.CreateTeam rt r (Exec.start s)).calls = [] ∧
      statuses (th.CreateTeam rt r (Exec.start s)) = [StatusBadRequest] ∧
      (rt.Decode r.Body).2 ≠ none) ∨
    ((∃ t, (th.CreateTeam rt r (Exec.start s)).calls = [Call.AddTeam t]) ∧
      (statuses (th.CreateTeam rt r (Exec.start s)) = [StatusCreated] ∨
        statuses (th.CreateTeam rt r (Exec.start s)) = [StatusInternalServerError]) ∧
      (rt.Decode r.Body).2 = none) := by
  unfold teamsHandler.CreateTeam
  simp only [Exec.start]
  cases hdec : (rt.Decode r.Body).2 with
  | some d =>
    simp [statuses, Exec.writeJSONError, Exec.logPrintln, writeJSONError]
  | none =>
    simp only []
    split <;>
      simp [statuses, Exec.writeJSON, Exec.writeJSONError, Exec.logPrintln, writeJSON,
        writeJSONError]

/-- The three path shapes of `UpdateTeam`. -/
theorem UpdateTeam_shape {σ : Type} (th : teamsHandler σ) (rt : Runtime σ) (r : Request)
    (s : σ) :
    ((th.UpdateTeam rt r (Exec.start s)).calls = [] ∧
      statuses (th.UpdateTeam rt r (Exec.start s)) = [StatusBadRequest] ∧
      (rt.Decode r.Body).2 ≠ none) ∨
    ((th.UpdateTeam rt r (Exec.start s)).calls = [Call.GetTeam (muxVars r "guid")] ∧
      (statuses (th.UpdateTeam rt r (Exec.start s)) = [StatusNotFound] ∨
        statuses (th.UpdateTeam rt r (Exec.start s)) = [StatusInternalServerError]) ∧
      (rt.Decode r.Body).2 = none ∧
      (th.SQLClient.GetTeam (muxVars r "guid") s).1.2 ≠ none) ∨
    ((∃ t, (th.UpdateTeam rt r (Exec.start s)).calls =
        [Call.GetTeam (muxVars r "guid"), Call.UpdateTeam t]) ∧
      (statuses (th.UpdateTeam rt r (Exec.start s)) = [StatusOK] ∨
        statuses (th.UpdateTeam rt r (Exec.start s)) = [StatusInternalServerError]) ∧
      (rt.Decode r.Body).2 = none ∧
      (th.SQLClient.GetTeam (muxVars r "guid") s).1.2 = none) := by
  unfold teamsHandler.UpdateTeam
  simp only [Exec.start]
  cases hdec : (rt.Decode r.Body).2 with
  | some d =>
    simp [statuses, Exec.writeJSONError, Exec.logPrintln, writeJSONError]
  | none =>
    cases hget : (th.SQLClient.GetTeam (muxVars r "guid") s).1.2 with
    | some e =>
      cases hrows : stringsContains e "no rows" <;>
        simp [hrows, statuses, Exec.writeJSONError, Exec.logPrintln, writeJSONError]
    | none =>
      simp only []
      split <;>
        simp [statuses, Exec.writeJSON, Exec.writeJSONError, Exec.logPrintln, writeJSON,
          writeJSONError]

/-- The two path shapes of `DeleteTeam`. -/
theorem DeleteTeam_shape {σ : Type} (th : teamsHandler σ) (r : Request) (s : σ) :
    ((th.DeleteTeam r (Exec.start s)).calls = [Call.GetTeam (muxVars r "guid")] ∧
      (statuses (th.DeleteTeam r (Exec.start s)) = [StatusNotFound] ∨
        statuses (th.DeleteTeam r (Exec.start s)) = [StatusInternalServerError]) ∧
      (th.SQLClient.GetTeam (muxVars r "guid") s).1.2 ≠ none) ∨
    ((∃ t, (th.DeleteTeam r (Exec.start s)).calls =
        [Call.GetTeam (muxVars r "guid"), Call.DeleteTeam t]) ∧
      (statuses (th.DeleteTeam r (Exec.start s)) = [StatusNoContent] ∨
        statuses (th.DeleteTeam r (Exec.start s)) = [StatusInternalServerError]) ∧
      (th.SQLClient.GetTeam (muxVars r "guid") s).1.2 = none) := by
  unfold teamsHandler.DeleteTeam
  simp only [Exec.start]
  cases hget : (th.SQLClient.GetTeam (muxVars r "guid") s).1.2 with
  | some e =>
    cases hrows : stringsContains e "no rows" <;>
      simp [hrows, statuses, Exec.writeJSONError, Exec.logPrintln, writeJSONError]
  | none =>
    simp only []
    split <;>
      simp [statuses, Exec.writeJSON, Exec.writeJSONError, Exec.logPrintln, writeJSON,
        writeJSONError]

/-- C15: from the start of a request, each of the four Team handlers writes exactly one
response and calls every client operation at most once.  `List` answers 200 or 500,
`Create` 201, 400 or 500, `Update` 200, 400, 404 or 500, `Delete` 204, 404 or 500.
`AddTeam` is called only if the body decoded, `UpdateTeam` only if the body decoded and
`GetTeam` succeeded, `DeleteTeam` only if `GetTeam` succeeded. -/
theorem handlers_answer_once_without_retry {σ : Type} (th : teamsHandler σ) (rt : Runtime σ)
    (r : Request) (s : σ) :
    ((th.GetTeams r (Exec.start s)).w.Written.length = 1 ∧
      (∀ o : Op, opCount o (th.GetTeams r (Exec.start s)).calls ≤ 1) ∧
      (∃ c ∈ [StatusOK, StatusInternalServerError],
        statuses (th.GetTeams r (Exec.start s)) = [c])) ∧
    ((th.CreateTeam rt r (Exec.start s)).w.Written.length = 1 ∧
      (∀ o : Op, opCount o (th.CreateTeam rt r (Exec.start s)).calls ≤ 1) ∧
      (∃ c ∈ [StatusCreated, StatusBadRequest, StatusInternalServerError],
        statuses (th.CreateTeam rt r (Exec.start s)) = [c]) ∧
      (0 < opCount Op.AddTeam (th.CreateTeam rt r (Exec.start s)).calls →
        (rt.Decode r.Body).2 = none)) ∧
    ((th.UpdateTeam rt r (Exec.start s)).w.Written.length = 1 ∧
      (∀ o : Op, opCount o (th.UpdateTeam rt r (Exec.start s)).calls ≤ 1) ∧
      (∃ c ∈ [StatusOK, StatusBadRequest, StatusNotFound, StatusInternalServerError],
        statuses (th.UpdateTeam rt r (Exec.start s)) = [c]) ∧
      (0 < opCount Op.UpdateTeam (th.UpdateTeam rt r (Exec.start s)).calls →
        (rt.Decode r.Body).2 = none ∧
        (th.SQLClient.GetTeam (muxVars r "guid") s).1.2 = none)) ∧
    ((th.DeleteTeam r (Exec.start s)).w.Written.length = 1 ∧
      (∀ o : Op, opCount o (th.DeleteTeam r (Exec.start s)).calls ≤ 1) ∧
      (∃ c ∈ [StatusNoContent, StatusNotFound, StatusInternalServerError],
        statuses (th.DeleteTeam r (Exec.start s)) = [c]) ∧
      (0 < opCount Op.DeleteTeam (th.DeleteTeam r (Exec.start s)).calls →
        (th.SQLClient.GetTeam (muxVars r "guid") s).1.2 = none)) := by
  have hlen : ∀ (x : Exec σ) (c : Nat), statuses x = [c] → x.w.Written.length = 1 := by
    intro x c hx
    have := congrArg List.length hx
    simpa [statuses] using this
  refine ⟨?_, ?_, ?_, ?_⟩
  · obtain ⟨hc, hs⟩ := GetTeams_shape th r s
    refine ⟨?_, ?_, ?_⟩
    · rcases hs with hs | hs <;> exact hlen _ _ hs
    · intro o
      rw [hc]
      cases o <;> simp [opCount, Call.op]
    · rcases hs with hs | hs <;> simp [hs]
  · rcases CreateTeam_shape th rt r s with ⟨hc, hs, hdec⟩ | ⟨⟨t, hc⟩, hs, hdec⟩
    · refine ⟨hlen _ _ hs, ?_, by simp [hs], ?_⟩
      · intro o
        rw [hc]
        simp [opCount]
      · rw [hc]
        simp [opCount]
    · refine ⟨?_, ?_, ?_, fun _ => hdec⟩
      · rcases hs with hs | hs <;> exact hlen _ _ hs
      · intro o
        rw [hc]
        cases o <;> simp [opCount, Call.op]
      · rcases hs with hs | hs <;> simp [hs]
  · rcases UpdateTeam_shape th rt r s with
      ⟨hc, hs, hdec⟩ | ⟨hc, hs, hdec, hget⟩ | ⟨⟨t, hc⟩, hs, hdec, hget⟩
    · refine ⟨hlen _ _ hs, ?_, by simp [hs], ?_⟩
      · intro o
        rw [hc]
        simp [opCount]
      · rw [hc]
        simp [opCount]
    · refine ⟨?_, ?_, ?_, ?_⟩
      · rcases hs with hs | hs <;> exact hlen _ _ hs
      · intro o
        rw [hc]
        cases o <;> simp [opCount, Call.op]
      · rcases hs with hs | hs <;> simp [hs]
      · rw [hc]
        simp [opCount, Call.op]
    · refine ⟨?_, ?_, ?_, fun _ => ⟨hdec, hget⟩⟩
      · rcases hs with hs | hs <;> exact hlen _ _ hs
      · intro o
        rw [hc]
        cases o <;> simp [opCount, Call.op]
      · rcases hs with hs | hs <;> simp [hs]
  · rcases DeleteTeam_shape th r s with ⟨hc, hs, hget⟩ | ⟨⟨t, hc⟩, hs, hget⟩
    · refine ⟨?_, ?_, ?_, ?_⟩
      · rcases hs with hs | hs <;> exact hlen _ _ hs
      · intro o
        rw [hc]
        cases o <;> simp [opCount, Call.op]
      · rcases hs with hs | hs <;> simp [hs]
      · rw [hc]
        simp [opCount, Call.op]
    · refine ⟨?_, ?_, ?_, fun _ => hget⟩
      · rcases hs with hs | hs <;> exact hlen _ _ hs
      · intro o
        rw [hc]
        cases o <;> simp [opCount, Call.op]
      · rcases hs with hs | hs <;> simp [hs]

/-- Witness for C15: a full `PATCH` makes the two calls `GetTeam` and `UpdateTeam` once
each and writes the one response 200; with a failing `UpdateTeam` the one response is 500
and the call is not repeated. -/
theorem handlers_answer_once_without_retry_witness :
    (fakeHandler.UpdateTeam fakeRuntime (patchRequest bodyRenamed) (Exec.start worldOK)).calls
      = [Call.GetTeam "some-guid", Call.UpdateTeam ⟨"1", "Renamed", 5, 100⟩] ∧
    0 < opCount Op.UpdateTeam
      (fakeHandler.UpdateTeam fakeRuntime (patchRequest bodyRenamed)
        (Exec.start worldOK)).calls ∧
    ((fakeRuntime.Decode (patchRequest bodyRenamed).Body).2 = none ∧
      (fakeHandler.SQLClient.GetTeam (muxVars (patchRequest bodyRenamed) "guid")
        worldOK).1.2 = none) ∧
    (fakeHandler.UpdateTeam fakeRuntime (patchRequest bodyRenamed)
      (Exec.start worldWriteFails)).w.Written.length = 1 ∧
    (∀ o : Op, opCount o
      (fakeHandler.UpdateTeam fakeRuntime (patchRequest bodyRenamed)
        (Exec.start worldWriteFails)).calls ≤ 1) ∧
    statuses (fakeHandler.UpdateTeam fakeRuntime (patchRequest bodyRenamed)
      (Exec.start worldWriteFails)) = [500] :=
  ⟨by decide, by decide,
    (handlers_answer_once_without_retry fakeHandler fakeRuntime (patchRequest bodyRenamed)
      worldOK).2.2.1.2.2.2 (by decide),
    (handlers_answer_once_without_retry fakeHandler fakeRuntime (patchRequest bodyRenamed)
      worldWriteFails).2.2.1.1,
    (handlers_answer_once_without_retry fakeHandler fakeRuntime (patchRequest bodyRenamed)
      worldWriteFails).2.2.1.2.1,
    by decide⟩

end WolfDynasty
